import Mathlib

/-!
Shallow embedding of the AI-Agents-for-Medical-Diagnostics repository
(src/Main.py and src/Utils/Agents.py) and proofs about its behaviour.

The repository orchestrates three "specialist" LLM calls in parallel and
synthesizes their outputs into a structured `FinalAnalysis`.  The remote
LLM service is external: a specialist future's outcome is modelled as an
`Except String String` (exception message, or returned report text), and a
run of `main` after the input file is loaded is parameterized by the
environment, the file contents, the completion order of the futures and
the per-role outcomes.
-/

set_option maxHeartbeats 1000000

/-- Embeds `HealthIssue` (src/Utils/Agents.py, `class HealthIssue(BaseModel)`):
fields `diagnosis`, `rationale`, `is_primary`. -/
structure HealthIssue where
  diagnosis : String
  rationale : String
  is_primary : Bool
deriving Repr, DecidableEq

/-- Embeds `FinalAnalysis` (src/Utils/Agents.py, `class FinalAnalysis(BaseModel)`):
a single field `analysis : list[HealthIssue]`.  The pydantic model declares no
validator beyond the field types: no length constraint and no constraint on how
many entries have `is_primary = true`. -/
structure FinalAnalysis where
  analysis : List HealthIssue
deriving Repr, DecidableEq

/-- Embeds the `PROMPTS` dict of src/Utils/Agents.py as an association list.
The keys are exactly those of the source.  The template bodies are long
free-form prose; they are abbreviated here to their opening words plus the
template variables, since no claim depends on the prose (only the key set and
the template variables are load-bearing). -/
def PROMPTS : List (String × String) :=
  [("cardiologist", "Act as a cardiologist. Medical Report: {medical_report}"),
   ("psychologist", "Act as a psychologist. Report: {medical_report}"),
   ("pulmonologist", "Act like a pulmonologist. Report: {medical_report}"),
   ("multidisciplinary_team",
     "Act like a multidisciplinary team. Cardiologist Report: {cardiologist_report} Psychologist Report: {psychologist_report} Pulmonologist Report: {pulmonologist_report} {format_instructions}")]

/-- The key set of `PROMPTS`. -/
def promptKeys : List String := PROMPTS.map Prod.fst

/-- Embeds the constructed state of `SpecialistAgent` (src/Utils/Agents.py):
the stored role and the prompt text looked up from `PROMPTS`.  The `ChatOpenAI`
client and the composed chain hold no data relevant to the claims. -/
structure SpecialistAgent where
  role : String
  prompt_text : String
deriving Repr, DecidableEq

/-- Embeds Python `str.lower()`: each character lowercased.  (Core
`String.toLower` is the same per-character map, but is defined by well-founded
recursion over byte positions and does not reduce in the kernel; this
structural form does, and agrees with it character for character.) -/
def pyLower (s : String) : String := ⟨s.data.map Char.toLower⟩

/-- Embeds `SpecialistAgent.__init__` (src/Utils/Agents.py lines 177-182):
`PROMPTS[self.role.lower()]` raises `KeyError` when `role.lower()` is not a
key of `PROMPTS`.  Constructing the `ChatOpenAI` client object beforehand makes
no generation call, so a `KeyError` here happens before any remote call. -/
def SpecialistAgent.init (role : String) : Except String SpecialistAgent :=
  match List.lookup (pyLower role) PROMPTS with
  | some t => .ok { role := role, prompt_text := t }
  | none => .error ("KeyError: " ++ pyLower role)

/-!
Model of the JSON value parsed by `PydanticOutputParser(pydantic_object=FinalAnalysis)`
(src/Utils/Agents.py line 192).  The parser extracts a JSON value from the raw
model response and validates it against the pydantic models above.  Text
extraction is external; validation of the extracted value is modelled here.
Pydantic v1 primitive coercions (e.g. numeric-to-str) are not modelled: the
claims depend only on required-field presence, the list requirement on
`analysis`, and the absence of any count validator.
-/

/-- A JSON value, as handed to the pydantic validation step. -/
inductive JValue where
  | null
  | bool (b : Bool)
  | num (n : Int)
  | str (s : String)
  | arr (xs : List JValue)
  | obj (fs : List (String × JValue))

/-- Validation of one list element against the `HealthIssue` model: the three
declared fields are required (pydantic v1 fields without defaults), each of the
declared primitive type; anything else is a validation error. -/
def parseHealthIssue : JValue → Except String HealthIssue
  | .obj fs =>
    match List.lookup "diagnosis" fs, List.lookup "rationale" fs,
          List.lookup "is_primary" fs with
    | some (.str d), some (.str r), some (.bool p) =>
      .ok { diagnosis := d, rationale := r, is_primary := p }
    | _, _, _ => .error "validation error"
  | _ => .error "value is not a valid dict"

/-- Validation of the whole response against the `FinalAnalysis` model: the
`analysis` field is required and must be a list; each element is validated as a
`HealthIssue`.  No further check exists in the source: any list length and any
number of `is_primary = true` entries validate. -/
def parseFinalAnalysis : JValue → Except String FinalAnalysis
  | .obj fs =>
    match List.lookup "analysis" fs with
    | some (.arr xs) =>
      match xs.mapM parseHealthIssue with
      | .ok issues => .ok { analysis := issues }
      | .error e => .error e
    | some _ => .error "value is not a valid list"
    | none => .error "field required"
  | _ => .error "value is not a valid dict"

/-!
Model of `main` (src/Main.py) from the credential check onward.  `load_dotenv`
and `os.getenv` are modelled by an environment function; reading the report
file by an `Option String` (`none` = `FileNotFoundError`); the thread pool
fan-out by a completion order (the order `as_completed` yields the futures,
an arbitrary permutation of the submission order) and a per-role outcome.
`MultidisciplinaryTeam.run` is a remote call, so the model stops at the point
where it is invoked, recording its three arguments.
-/

/-- Embeds `specialist_roles` (src/Main.py line 46). -/
def specialist_roles : List String := ["Cardiologist", "Psychologist", "Pulmonologist"]

/-- Embeds the placeholder stored at src/Main.py line 65:
`f"AGENT FAILED TO PRODUCE REPORT. REASON: {e}"`. -/
def placeholderFor (e : String) : String :=
  "AGENT FAILED TO PRODUCE REPORT. REASON: " ++ e

/-- Embeds the log line at src/Main.py line 62. -/
def successLog (role : String) : String :=
  "✓ Report received from " ++ role

/-- Embeds the log line at src/Main.py line 64. -/
def failureLog (role e : String) : String :=
  "✗ " ++ role ++ " agent failed: " ++ e

/-- The value stored into `responses[role]` by the loop body at src/Main.py
lines 59-65: the report on success, the placeholder on exception. -/
def respValue (outcomes : String → Except String String) (role : String) : String :=
  match outcomes role with
  | .ok report => report
  | .error e => placeholderFor e

/-- The log line emitted by the loop body at src/Main.py lines 59-65. -/
def logValue (outcomes : String → Except String String) (role : String) : String :=
  match outcomes role with
  | .ok _ => successLog role
  | .error e => failureLog role e

/-- The `responses` dict built by the `as_completed` loop (src/Main.py lines
57-65), as an association list in completion order: one entry per completed
future, keyed by its role. -/
def collectResponses (outcomes : String → Except String String)
    (completionOrder : List String) : List (String × String) :=
  completionOrder.map (fun role => (role, respValue outcomes role))

/-- The log lines emitted by the `as_completed` loop, in completion order. -/
def collectLogs (outcomes : String → Except String String)
    (completionOrder : List String) : List String :=
  completionOrder.map (logValue outcomes)

/-- Embeds `responses.get(key, "N/A")` (src/Main.py lines 76-78). -/
def dictGet (d : List (String × String)) (key dflt : String) : String :=
  (List.lookup key d).getD dflt

/-- How a run of `main` ends, up to the synthesis call: `sys.exit(code)`, or
`team_agent.run` invoked with the three keyword arguments of src/Main.py
lines 75-79. -/
inductive MainResult where
  | exitFail (code : Nat)
  | synthesisCalled (cardiologist_report psychologist_report pulmonologist_report : String)
deriving Repr, DecidableEq

/-- Observable trace of one run of `main`: which specialist agents were
constructed (src/Main.py line 47), which roles had a generation call dispatched
(lines 50-54), the `responses` dict, the per-future log lines, and how the run
ended. -/
structure RunTrace where
  agentsConstructed : List String
  remoteCalls : List String
  responses : List (String × String)
  logs : List String
  result : MainResult
deriving Repr, DecidableEq

/-- Embeds `main` (src/Main.py lines 26-82): the `OPENAI_API_KEY` check exits 1
before any agent is constructed; a missing input file exits 1; otherwise one
`SpecialistAgent` per role is constructed, one generation call per role is
dispatched, the `as_completed` loop fills `responses` (placeholder on
exception), the guard `len(responses) < len(specialist_roles)` exits 1, and
otherwise `MultidisciplinaryTeam().run` is called with the three
`responses.get(..., "N/A")` values. -/
def mainModel (env : String → Option String) (fileContents : Option String)
    (completionOrder : List String)
    (outcomes : String → Except String String) : RunTrace :=
  match env "OPENAI_API_KEY" with
  | none =>
    { agentsConstructed := [], remoteCalls := [], responses := [], logs := [],
      result := .exitFail 1 }
  | some _ =>
    match fileContents with
    | none =>
      { agentsConstructed := [], remoteCalls := [], responses := [], logs := [],
        result := .exitFail 1 }
    | some _ =>
      let responses := collectResponses outcomes completionOrder
      let logs := collectLogs outcomes completionOrder
      if responses.length < specialist_roles.length then
        { agentsConstructed := specialist_roles, remoteCalls := specialist_roles,
          responses := responses, logs := logs, result := .exitFail 1 }
      else
        { agentsConstructed := specialist_roles, remoteCalls := specialist_roles,
          responses := responses, logs := logs,
          result := .synthesisCalled
            (dictGet responses "Cardiologist" "N/A")
            (dictGet responses "Psychologist" "N/A")
            (dictGet responses "Pulmonologist" "N/A") }

/-!
Report formatting (src/Main.py lines 85-89).  Python `sorted` is a stable
sort; it is embedded as a left-fold insertion sort that inserts each element
after all previously placed elements whose key is less than or equal — the
standard stable insertion sort, proved below to order by the key with ties in
original order.  The key is `lambda x: not x.is_primary`, and Python orders
`False < True`.
-/

/-- Strict comparison of two elements under a boolean sort key, with
`false < true` as in Python. -/
def keyLt (key : α → Bool) (x y : α) : Bool := !key x && key y

/-- Stable insertion of `x` into `acc`: `x` goes before the first element it
compares strictly below, hence after every element with an equal key. -/
def insertStable (key : α → Bool) (x : α) : List α → List α
  | [] => [x]
  | y :: ys => if keyLt key x y then x :: y :: ys else y :: insertStable key x ys

/-- Embeds Python `sorted(l, key=...)` for a boolean-valued key: a stable sort. -/
def pySorted (key : α → Bool) (l : List α) : List α :=
  l.foldl (fun acc x => insertStable key x acc) []

/-- The sort applied at src/Main.py line 86:
`sorted(final_analysis.analysis, key=lambda x: not x.is_primary)`. -/
def sortedAnalysis (l : List HealthIssue) : List HealthIssue :=
  pySorted (fun x => !x.is_primary) l

/-- Embeds the header tag chosen at src/Main.py line 87. -/
def issueTag (issue : HealthIssue) : String :=
  if issue.is_primary then "Primary Diagnosis" else "Differential Diagnosis"

/-- Embeds the two lines appended per issue at src/Main.py lines 88-89. -/
def issueBlock (issue : HealthIssue) : String :=
  "**" ++ issueTag issue ++ ": " ++ issue.diagnosis ++ "**\n"
    ++ "   - **Rationale:** " ++ issue.rationale ++ "\n\n"

/-- Embeds the `report_text` accumulation of src/Main.py lines 85-89. -/
def formatReport (fa : FinalAnalysis) : String :=
  (sortedAnalysis fa.analysis).foldl (fun acc issue => acc ++ issueBlock issue)
    "### Final Multidisciplinary Team Analysis ###\n\n"

/-- Concatenation of the per-issue blocks in list order. -/
def blocksText : List HealthIssue → String
  | [] => ""
  | issue :: rest => issueBlock issue ++ blocksText rest

lemma foldl_append_blocks (l : List HealthIssue) (init : String) :
    l.foldl (fun acc issue => acc ++ issueBlock issue) init = init ++ blocksText l := by
  induction l generalizing init with
  | nil => simp [blocksText]
  | cons issue rest ih => simp [blocksText, ih, String.append_assoc]

lemma insertStable_keyTrue (k : α → Bool) (x : α) (l : List α) (hx : k x = true) :
    insertStable k x l = l ++ [x] := by
  induction l with
  | nil => simp [insertStable]
  | cons y ys ih => simp [insertStable, keyLt, hx, ih]

lemma insertStable_keyFalse (k : α → Bool) (x : α) (A B : List α) (hx : k x = false)
    (hA : ∀ a ∈ A, k a = false) (hB : ∀ b ∈ B, k b = true) :
    insertStable k x (A ++ B) = A ++ x :: B := by
  induction A with
  | nil =>
    cases B with
    | nil => simp [insertStable]
    | cons y ys =>
      have hy : k y = true := hB y (by simp)
      simp [insertStable, keyLt, hx, hy]
  | cons a as ih =>
    have ha : k a = false := hA a (by simp)
    simp only [List.cons_append, insertStable, keyLt, hx, ha, Bool.and_false,
      Bool.not_false, if_neg Bool.false_ne_true]
    exact List.cons_inj_right a |>.mpr
      (ih (fun a' h => hA a' (List.mem_cons_of_mem _ h)))

lemma pySorted_loop (k : α → Bool) (l : List α) :
    ∀ A B : List α, (∀ a ∈ A, k a = false) → (∀ b ∈ B, k b = true) →
    l.foldl (fun acc x => insertStable k x acc) (A ++ B)
      = (A ++ l.filter (fun x => !k x)) ++ (B ++ l.filter k) := by
  induction l with
  | nil => intro A B hA hB; simp
  | cons x xs ih =>
    intro A B hA hB
    cases hx : k x with
    | false =>
      have hstep : insertStable k x (A ++ B) = (A ++ [x]) ++ B := by
        rw [insertStable_keyFalse k x A B hx hA hB]; simp
      have hA' : ∀ a ∈ A ++ [x], k a = false := by
        intro a ha
        rcases List.mem_append.mp ha with h | h
        · exact hA a h
        · simpa [List.mem_singleton.mp h]
      rw [List.foldl_cons, hstep, ih (A ++ [x]) B hA' hB]
      simp [List.filter_cons, hx, List.append_assoc]
    | true =>
      have hstep : insertStable k x (A ++ B) = A ++ (B ++ [x]) := by
        rw [insertStable_keyTrue k x (A ++ B) hx]; simp
      have hB' : ∀ b ∈ B ++ [x], k b = true := by
        intro b hb
        rcases List.mem_append.mp hb with h | h
        · exact hB b h
        · simpa [List.mem_singleton.mp h]
      rw [List.foldl_cons, hstep, ih A (B ++ [x]) hA hB']
      simp [List.filter_cons, hx, List.append_assoc]

/-- Python `sorted` with a boolean key is the stable partition: the elements
whose key is `false` (Python `False` sorts first), in their original order,
followed by the elements whose key is `true`, in their original order. -/
lemma pySorted_eq_partition (k : α → Bool) (l : List α) :
    pySorted k l = l.filter (fun x => !k x) ++ l.filter k := by
  have h := pySorted_loop k l [] [] (by simp) (by simp)
  simpa [pySorted] using h

/-- The sort at src/Main.py line 86 puts the `is_primary` entries first, in
original order, followed by the non-primary entries, in original order. -/
lemma sortedAnalysis_eq (l : List HealthIssue) :
    sortedAnalysis l
      = l.filter (fun x => x.is_primary) ++ l.filter (fun x => !x.is_primary) := by
  have h := pySorted_eq_partition (fun x : HealthIssue => !x.is_primary) l
  simpa [sortedAnalysis, Bool.not_not] using h

/-- The sort is a permutation of its input. -/
lemma sortedAnalysis_perm (l : List HealthIssue) : List.Perm (sortedAnalysis l) l := by
  rw [sortedAnalysis_eq]
  simpa using List.filter_append_perm (fun x : HealthIssue => x.is_primary) l

/-- Closed form of the formatted report. -/
lemma formatReport_eq (fa : FinalAnalysis) :
    formatReport fa
      = "### Final Multidisciplinary Team Analysis ###\n\n"
        ++ blocksText (sortedAnalysis fa.analysis) := by
  simp [formatReport, foldl_append_blocks]

/-- The keys of the `responses` dict are exactly the completion order. -/
lemma collectResponses_keys (outcomes : String → Except String String)
    (order : List String) :
    (collectResponses outcomes order).map Prod.fst = order := by
  simp [collectResponses, List.map_map, Function.comp_def]

lemma lookup_collectResponses (outcomes : String → Except String String)
    (order : List String) (r : String) (hr : r ∈ order) :
    List.lookup r (collectResponses outcomes order) = some (respValue outcomes r) := by
  induction order with
  | nil => cases hr
  | cons x xs ih =>
    by_cases hx : r = x
    · subst hx; simp [collectResponses, List.lookup]
    · have hmem : r ∈ xs := by
        rcases List.mem_cons.mp hr with h | h
        · exact absurd h hx
        · exact h
      have hbeq : (r == x) = false := beq_eq_false_iff_ne.mpr hx
      simpa [collectResponses, List.lookup, hbeq] using ih hmem

/-- When the credential is present, the file loads, and every launched future
completes, the run reaches the synthesis stage with the collected responses. -/
lemma mainModel_good (env : String → Option String) (k : String)
    (fileContents : String) (order : List String)
    (outcomes : String → Except String String)
    (hk : env "OPENAI_API_KEY" = some k)
    (hlen : specialist_roles.length ≤ order.length) :
    mainModel env (some fileContents) order outcomes =
      { agentsConstructed := specialist_roles, remoteCalls := specialist_roles,
        responses := collectResponses outcomes order,
        logs := collectLogs outcomes order,
        result := .synthesisCalled
          (dictGet (collectResponses outcomes order) "Cardiologist" "N/A")
          (dictGet (collectResponses outcomes order) "Psychologist" "N/A")
          (dictGet (collectResponses outcomes order) "Pulmonologist" "N/A") } := by
  have hnot : ¬ (collectResponses outcomes order).length < specialist_roles.length := by
    have : (collectResponses outcomes order).length = order.length := by
      simp [collectResponses]
    omega
  simp only [mainModel, hk]
  rw [if_neg hnot]

/-- Under the same conditions, the synthesis call receives, for each role, the
value the loop stored for it: the report on success, the placeholder on
exception. -/
lemma mainModel_synthesis_args (env : String → Option String) (k : String)
    (fileContents : String) (order : List String)
    (outcomes : String → Except String String)
    (hk : env "OPENAI_API_KEY" = some k)
    (hperm : List.Perm order specialist_roles) :
    (mainModel env (some fileContents) order outcomes).result =
      .synthesisCalled (respValue outcomes "Cardiologist")
        (respValue outcomes "Psychologist") (respValue outcomes "Pulmonologist") := by
  have hlen : specialist_roles.length ≤ order.length := le_of_eq hperm.length_eq.symm
  have hmem : ∀ r ∈ specialist_roles, r ∈ order := fun r hr => hperm.mem_iff.mpr hr
  rw [mainModel_good env k fileContents order outcomes hk hlen]
  simp only [dictGet]
  rw [lookup_collectResponses outcomes order "Cardiologist" (hmem _ (by simp [specialist_roles])),
    lookup_collectResponses outcomes order "Psychologist" (hmem _ (by simp [specialist_roles])),
    lookup_collectResponses outcomes order "Pulmonologist" (hmem _ (by simp [specialist_roles]))]
  rfl

/-- A concrete environment holding a credential, for concrete runs. -/
def envOk : String → Option String := fun _ => some "sk-test"

/-- Concrete outcomes where exactly the Cardiologist future raises (message
"boom") and the other two futures return reports. -/
def oneFailOutcomes : String → Except String String := fun role =>
  if role = "Cardiologist" then .error "boom"
  else .ok ("REPORT FROM " ++ role)

/-- C7: if `OPENAI_API_KEY` is absent, the process exits non-zero (exit code 1,
src/Main.py line 35) before any `SpecialistAgent` is constructed, so the run
constructs no agent and makes zero remote generation calls. -/
theorem C7_missing_credential (env : String → Option String)
    (fileContents : Option String) (order : List String)
    (outcomes : String → Except String String)
    (h : env "OPENAI_API_KEY" = none) :
    mainModel env fileContents order outcomes =
      { agentsConstructed := [], remoteCalls := [], responses := [], logs := [],
        result := .exitFail 1 } := by
  simp [mainModel, h]

/-- Witness for C7 at a concrete empty environment. -/
theorem C7_missing_credential_witness :
    ((fun _ : String => (none : Option String)) "OPENAI_API_KEY" = none)
    ∧ mainModel (fun _ => none) (some "patient report") specialist_roles
        (fun _ => .ok "r") =
      { agentsConstructed := [], remoteCalls := [], responses := [], logs := [],
        result := .exitFail 1 } :=
  ⟨rfl, C7_missing_credential (fun _ => none) (some "patient report")
    specialist_roles (fun _ => .ok "r") rfl⟩

/-- C4: for every completion order of the three futures (any permutation of the
submitted roles), the run collects one `responses` entry per role — each
requested role appears exactly once among the keys, no role missing, no
duplicate — and then reaches the synthesis call. -/
theorem C4_fanout_complete (env : String → Option String) (k fileContents : String)
    (order : List String) (outcomes : String → Except String String)
    (hk : env "OPENAI_API_KEY" = some k)
    (hperm : List.Perm order specialist_roles) :
    ((mainModel env (some fileContents) order outcomes).responses.map Prod.fst = order)
    ∧ (∀ r ∈ specialist_roles,
        ((mainModel env (some fileContents) order outcomes).responses.map Prod.fst).count r
          = 1)
    ∧ ∃ c p u, (mainModel env (some fileContents) order outcomes).result
        = MainResult.synthesisCalled c p u := by
  have hlen : specialist_roles.length ≤ order.length := le_of_eq hperm.length_eq.symm
  rw [mainModel_good env k fileContents order outcomes hk hlen]
  refine ⟨collectResponses_keys _ _, ?_, ⟨_, _, _, rfl⟩⟩
  intro r hr
  rw [collectResponses_keys, hperm.count_eq]
  have : r = "Cardiologist" ∨ r = "Psychologist" ∨ r = "Pulmonologist" := by
    simpa [specialist_roles] using hr
  rcases this with h | h | h <;> subst h <;> decide

/-- Witness for C4 at a concrete reversed completion order. -/
theorem C4_fanout_complete_witness :
    (envOk "OPENAI_API_KEY" = some "sk-test")
    ∧ List.Perm ["Pulmonologist", "Psychologist", "Cardiologist"] specialist_roles
    ∧ (((mainModel envOk (some "patient report")
          ["Pulmonologist", "Psychologist", "Cardiologist"]
          oneFailOutcomes).responses.map Prod.fst
        = ["Pulmonologist", "Psychologist", "Cardiologist"])
      ∧ (∀ r ∈ specialist_roles,
          ((mainModel envOk (some "patient report")
              ["Pulmonologist", "Psychologist", "Cardiologist"]
              oneFailOutcomes).responses.map Prod.fst).count r = 1)
      ∧ ∃ c p u, (mainModel envOk (some "patient report")
          ["Pulmonologist", "Psychologist", "Cardiologist"] oneFailOutcomes).result
            = MainResult.synthesisCalled c p u) :=
  ⟨rfl, by decide,
    C4_fanout_complete envOk "sk-test" "patient report"
      ["Pulmonologist", "Psychologist", "Cardiologist"] oneFailOutcomes rfl (by decide)⟩

/-- C1 counterexample: in the concrete run where the Cardiologist future raises
"boom", the run does not exit — the synthesis call is reached, and its first
argument is the degraded placeholder, contrary to the claim that any specialist
failure aborts the run before synthesis. -/
theorem C1_abort_counterexample :
    ((mainModel envOk (some "patient report") specialist_roles oneFailOutcomes).result
      = MainResult.synthesisCalled (placeholderFor "boom")
          "REPORT FROM Psychologist" "REPORT FROM Pulmonologist")
    ∧ (mainModel envOk (some "patient report") specialist_roles oneFailOutcomes).result
        ≠ MainResult.exitFail 1 := by
  exact ⟨by decide, by decide⟩

/-- C1 amended: a specialist failure does not abort the run.  The exception
handler (src/Main.py lines 63-65) stores a placeholder, so `responses` always
has one entry per completed future, the guard at line 68 never fires, and the
synthesis call is reached with the failed role's placeholder as its argument. -/
theorem C1_amended_placeholder_passed (env : String → Option String)
    (k fileContents : String) (order : List String)
    (outcomes : String → Except String String) (e : String)
    (hk : env "OPENAI_API_KEY" = some k)
    (hperm : List.Perm order specialist_roles)
    (hfail : outcomes "Cardiologist" = .error e) :
    (mainModel env (some fileContents) order outcomes).result
      = MainResult.synthesisCalled (placeholderFor e)
          (respValue outcomes "Psychologist") (respValue outcomes "Pulmonologist") := by
  rw [mainModel_synthesis_args env k fileContents order outcomes hk hperm]
  simp [respValue, hfail]

/-- Witness for the amended C1 at the concrete one-failure run. -/
theorem C1_amended_witness :
    (envOk "OPENAI_API_KEY" = some "sk-test")
    ∧ (oneFailOutcomes "Cardiologist" = Except.error "boom")
    ∧ (mainModel envOk (some "patient report") specialist_roles oneFailOutcomes).result
        = MainResult.synthesisCalled (placeholderFor "boom")
            (respValue oneFailOutcomes "Psychologist")
            (respValue oneFailOutcomes "Pulmonologist") :=
  ⟨rfl, rfl,
    C1_amended_placeholder_passed envOk "sk-test" "patient report" specialist_roles
      oneFailOutcomes "boom" rfl (List.Perm.refl _) rfl⟩

/-- C2 counterexample: in the concrete one-failure run, the failed role's
`responses` entry is exactly the placeholder of src/Main.py line 65, which
carries the failure reason but does not contain the role's name — contrary to
the claim that the placeholder contains both the role name and the reason. -/
theorem C2_placeholder_counterexample :
    (List.lookup "Cardiologist"
        (mainModel envOk (some "patient report") specialist_roles
          oneFailOutcomes).responses
      = some (placeholderFor "boom"))
    ∧ ¬ List.IsInfix "Cardiologist".data (placeholderFor "boom").data := by
  exact ⟨rfl, by decide⟩

/-- C2 amended: when exactly one specialist future raises, `responses` still
has one entry per role; the failed role's entry is the placeholder carrying
the failure reason (the role's name appears in the log line, not in the
placeholder); the exception is caught — the run does not crash and reaches
synthesis. -/
theorem C2_amended_single_failure (env : String → Option String)
    (k fileContents : String) (order : List String)
    (outcomes : String → Except String String) (role e : String)
    (hk : env "OPENAI_API_KEY" = some k)
    (hperm : List.Perm order specialist_roles)
    (hrole : role ∈ specialist_roles)
    (hfail : outcomes role = .error e)
    (_hothers : ∀ r ∈ specialist_roles, r ≠ role → ∃ s, outcomes r = .ok s) :
    ((mainModel env (some fileContents) order outcomes).responses.map Prod.fst = order)
    ∧ List.lookup role (mainModel env (some fileContents) order outcomes).responses
        = some (placeholderFor e)
    ∧ failureLog role e ∈ (mainModel env (some fileContents) order outcomes).logs
    ∧ ∃ c p u, (mainModel env (some fileContents) order outcomes).result
        = MainResult.synthesisCalled c p u := by
  have hlen : specialist_roles.length ≤ order.length := le_of_eq hperm.length_eq.symm
  have hmemo : role ∈ order := hperm.mem_iff.mpr hrole
  rw [mainModel_good env k fileContents order outcomes hk hlen]
  refine ⟨collectResponses_keys _ _, ?_, ?_, ⟨_, _, _, rfl⟩⟩
  · rw [lookup_collectResponses outcomes order role hmemo]
    simp [respValue, hfail]
  · have hlog : logValue outcomes role = failureLog role e := by simp [logValue, hfail]
    rw [← hlog]
    exact List.mem_map_of_mem (logValue outcomes) hmemo

/-- Witness for the amended C2 at the concrete one-failure run. -/
theorem C2_amended_witness :
    (oneFailOutcomes "Cardiologist" = Except.error "boom")
    ∧ (List.lookup "Cardiologist"
        (mainModel envOk (some "patient report") specialist_roles
          oneFailOutcomes).responses
      = some (placeholderFor "boom"))
    ∧ failureLog "Cardiologist" "boom"
        ∈ (mainModel envOk (some "patient report") specialist_roles
            oneFailOutcomes).logs := by
  have h := C2_amended_single_failure envOk "sk-test" "patient report"
    specialist_roles oneFailOutcomes "Cardiologist" "boom" rfl (List.Perm.refl _)
    (by simp [specialist_roles]) rfl
    (fun r hr hne => ⟨"REPORT FROM " ++ r, by simp [oneFailOutcomes, hne]⟩)
  exact ⟨rfl, h.2.1, h.2.2.1⟩

/-- C9: constructing a `SpecialistAgent` whose lowercased role is not a key of
`PROMPTS` raises `KeyError` during `__init__`, before any remote call; for the
three expected roles the lookup succeeds because it is keyed on the lowercased
role name. -/
theorem C9_role_lookup :
    (∀ role : String,
        pyLower role ≠ "cardiologist" → pyLower role ≠ "psychologist" →
        pyLower role ≠ "pulmonologist" → pyLower role ≠ "multidisciplinary_team" →
        SpecialistAgent.init role = .error ("KeyError: " ++ pyLower role))
    ∧ SpecialistAgent.init "Cardiologist" = .ok
        { role := "Cardiologist",
          prompt_text := "Act as a cardiologist. Medical Report: {medical_report}" }
    ∧ SpecialistAgent.init "Psychologist" = .ok
        { role := "Psychologist",
          prompt_text := "Act as a psychologist. Report: {medical_report}" }
    ∧ SpecialistAgent.init "Pulmonologist" = .ok
        { role := "Pulmonologist",
          prompt_text := "Act like a pulmonologist. Report: {medical_report}" } := by
  refine ⟨?_, rfl, rfl, rfl⟩
  intro role h1 h2 h3 h4
  have e1 : (pyLower role == "cardiologist") = false := beq_eq_false_iff_ne.mpr h1
  have e2 : (pyLower role == "psychologist") = false := beq_eq_false_iff_ne.mpr h2
  have e3 : (pyLower role == "pulmonologist") = false := beq_eq_false_iff_ne.mpr h3
  have e4 : (pyLower role == "multidisciplinary_team") = false :=
    beq_eq_false_iff_ne.mpr h4
  simp [SpecialistAgent.init, PROMPTS, List.lookup, e1, e2, e3, e4]

/-- Witness for C9 at the unknown role "Surgeon". -/
theorem C9_role_lookup_witness :
    (pyLower "Surgeon" ≠ "cardiologist" ∧ pyLower "Surgeon" ≠ "psychologist"
      ∧ pyLower "Surgeon" ≠ "pulmonologist"
      ∧ pyLower "Surgeon" ≠ "multidisciplinary_team")
    ∧ SpecialistAgent.init "Surgeon" = .error ("KeyError: " ++ pyLower "Surgeon") :=
  ⟨⟨by decide, by decide, by decide, by decide⟩,
    C9_role_lookup.1 "Surgeon" (by decide) (by decide) (by decide) (by decide)⟩

/-- A synthesis response with only two entries, neither marked primary. -/
def badSynthesisResponse : JValue :=
  .obj [("analysis", .arr
    [.obj [("diagnosis", .str "Anxiety"), ("rationale", .str "panic attacks"),
           ("is_primary", .bool false)],
     .obj [("diagnosis", .str "Asthma"), ("rationale", .str "wheezing"),
           ("is_primary", .bool false)]])]

/-- C3 counterexample: a response with two entries and zero entries marked
primary validates successfully — the parser enforces neither the
exactly-3-entries rule nor the exactly-one-primary rule, contrary to the claim
that such responses are rejected. -/
theorem C3_validation_counterexample :
    parseFinalAnalysis badSynthesisResponse
      = Except.ok { analysis :=
          [{ diagnosis := "Anxiety", rationale := "panic attacks", is_primary := false },
           { diagnosis := "Asthma", rationale := "wheezing", is_primary := false }] }
    ∧ ([{ diagnosis := "Anxiety", rationale := "panic attacks", is_primary := false },
        { diagnosis := "Asthma", rationale := "wheezing", is_primary := false }]
          : List HealthIssue).length ≠ 3
    ∧ ([{ diagnosis := "Anxiety", rationale := "panic attacks", is_primary := false },
        { diagnosis := "Asthma", rationale := "wheezing", is_primary := false }]
          : List HealthIssue).countP (fun x => x.is_primary) ≠ 1 :=
  ⟨rfl, by decide, by decide⟩

/-- C3 amended: the validation is all-or-nothing over the checks that exist —
a non-dict response, a missing or non-list `analysis` field, and an entry
missing one of the three declared fields are all rejected with no
`FinalAnalysis` produced — but no count is validated: whenever every entry
validates, the whole response validates, for any entry count and any number of
primary-marked entries. -/
theorem C3_amended_validation :
    (∀ s : String, parseFinalAnalysis (.str s) = .error "value is not a valid dict")
    ∧ (∀ fs, List.lookup "analysis" fs = none →
        parseFinalAnalysis (.obj fs) = .error "field required")
    ∧ (∀ fs s, List.lookup "analysis" fs = some (.str s) →
        parseFinalAnalysis (.obj fs) = .error "value is not a valid list")
    ∧ (∀ d r : String,
        parseHealthIssue (.obj [("diagnosis", .str d), ("rationale", .str r)])
          = .error "validation error")
    ∧ (∀ xs issues, xs.mapM parseHealthIssue = Except.ok issues →
        ∀ fs, List.lookup "analysis" fs = some (.arr xs) →
        parseFinalAnalysis (.obj fs) = .ok { analysis := issues }) := by
  refine ⟨fun s => rfl, ?_, ?_, fun d r => rfl, ?_⟩
  · intro fs h; simp [parseFinalAnalysis, h]
  · intro fs s h; simp [parseFinalAnalysis, h]
  · intro xs issues hmap fs h
    simp only [parseFinalAnalysis, h]
    rw [hmap]

/-- Witness for the amended C3 at concrete inputs. -/
theorem C3_amended_witness :
    (List.lookup "analysis" [("other", JValue.null)] = none)
    ∧ parseFinalAnalysis (.obj [("other", JValue.null)]) = .error "field required"
    ∧ parseHealthIssue
        (.obj [("diagnosis", JValue.str "Anxiety"), ("rationale", JValue.str "x")])
        = .error "validation error" := by
  have h := C3_amended_validation
  exact ⟨rfl, h.2.1 [("other", JValue.null)] rfl, h.2.2.2.1 "Anxiety" "x"⟩

/-- C5: when the analysis has exactly 3 entries of which exactly one is marked
primary, the stable sort puts the primary entry first and the two non-primary
entries after it in their original order, and the report is the banner followed
by the primary-tagged block then the two differential-tagged blocks, each block
carrying the entry's rationale. -/
theorem C5_report_order (fa : FinalAnalysis) (p : HealthIssue)
    (hp : fa.analysis.filter (fun x => x.is_primary) = [p])
    (hlen : fa.analysis.length = 3) :
    ∃ d1 d2 : HealthIssue,
      fa.analysis.filter (fun x => !x.is_primary) = [d1, d2]
      ∧ sortedAnalysis fa.analysis = [p, d1, d2]
      ∧ issueTag p = "Primary Diagnosis"
      ∧ issueTag d1 = "Differential Diagnosis"
      ∧ issueTag d2 = "Differential Diagnosis"
      ∧ formatReport fa
        = "### Final Multidisciplinary Team Analysis ###\n\n"
          ++ issueBlock p ++ issueBlock d1 ++ issueBlock d2 := by
  have hperm := (sortedAnalysis_perm fa.analysis).length_eq
  have hsorted := sortedAnalysis_eq fa.analysis
  rw [hp] at hsorted
  have hlen2 : (fa.analysis.filter (fun x => !x.is_primary)).length = 2 := by
    rw [hsorted] at hperm
    simp only [List.length_append, List.length_cons, List.length_nil, hlen] at hperm
    omega
  obtain ⟨d1, d2, hnf⟩ := List.length_eq_two.mp hlen2
  have hpprim : p.is_primary = true := by
    have hmem : p ∈ fa.analysis.filter (fun x => x.is_primary) := by rw [hp]; simp
    exact (List.mem_filter.mp hmem).2
  have hd1 : d1.is_primary = false := by
    have hmem : d1 ∈ fa.analysis.filter (fun x => !x.is_primary) := by rw [hnf]; simp
    simpa using (List.mem_filter.mp hmem).2
  have hd2 : d2.is_primary = false := by
    have hmem : d2 ∈ fa.analysis.filter (fun x => !x.is_primary) := by rw [hnf]; simp
    simpa using (List.mem_filter.mp hmem).2
  refine ⟨d1, d2, hnf, ?_, ?_, ?_, ?_, ?_⟩
  · rw [hsorted, hnf]; rfl
  · simp [issueTag, hpprim]
  · simp [issueTag, hd1]
  · simp [issueTag, hd2]
  · rw [formatReport_eq, hsorted, hnf]
    simp [blocksText, String.append_assoc]

/-- Witness for C5 at a concrete analysis whose primary entry is in the middle. -/
theorem C5_report_order_witness :
    ((FinalAnalysis.mk
        [{ diagnosis := "Asthma", rationale := "wheezing", is_primary := false },
         { diagnosis := "Panic disorder", rationale := "episodes", is_primary := true },
         { diagnosis := "GERD", rationale := "reflux", is_primary := false }]).analysis.filter
        (fun x => x.is_primary)
      = [{ diagnosis := "Panic disorder", rationale := "episodes", is_primary := true }])
    ∧ ((FinalAnalysis.mk
        [{ diagnosis := "Asthma", rationale := "wheezing", is_primary := false },
         { diagnosis := "Panic disorder", rationale := "episodes", is_primary := true },
         { diagnosis := "GERD", rationale := "reflux", is_primary := false }]).analysis.length
      = 3)
    ∧ ∃ d1 d2 : HealthIssue,
        (FinalAnalysis.mk
          [{ diagnosis := "Asthma", rationale := "wheezing", is_primary := false },
           { diagnosis := "Panic disorder", rationale := "episodes", is_primary := true },
           { diagnosis := "GERD", rationale := "reflux", is_primary := false }]).analysis.filter
          (fun x => !x.is_primary) = [d1, d2]
        ∧ sortedAnalysis (FinalAnalysis.mk
            [{ diagnosis := "Asthma", rationale := "wheezing", is_primary := false },
             { diagnosis := "Panic disorder", rationale := "episodes", is_primary := true },
             { diagnosis := "GERD", rationale := "reflux", is_primary := false }]).analysis
          = [{ diagnosis := "Panic disorder", rationale := "episodes", is_primary := true },
             d1, d2]
        ∧ issueTag { diagnosis := "Panic disorder", rationale := "episodes", is_primary := true }
            = "Primary Diagnosis"
        ∧ issueTag d1 = "Differential Diagnosis"
        ∧ issueTag d2 = "Differential Diagnosis"
        ∧ formatReport (FinalAnalysis.mk
            [{ diagnosis := "Asthma", rationale := "wheezing", is_primary := false },
             { diagnosis := "Panic disorder", rationale := "episodes", is_primary := true },
             { diagnosis := "GERD", rationale := "reflux", is_primary := false }])
          = "### Final Multidisciplinary Team Analysis ###\n\n"
            ++ issueBlock { diagnosis := "Panic disorder", rationale := "episodes",
                            is_primary := true }
            ++ issueBlock d1 ++ issueBlock d2 :=
  ⟨by decide, by decide,
    C5_report_order
      (FinalAnalysis.mk
        [{ diagnosis := "Asthma", rationale := "wheezing", is_primary := false },
         { diagnosis := "Panic disorder", rationale := "episodes", is_primary := true },
         { diagnosis := "GERD", rationale := "reflux", is_primary := false }])
      { diagnosis := "Panic disorder", rationale := "episodes", is_primary := true }
      (by decide) (by decide)⟩

/-- C6: the formatter is a pure function of the `FinalAnalysis` value —
formatting the same value twice yields the identical string — and whenever
exactly one entry is marked primary, that entry heads the sorted output
whatever its position in the input list. -/
theorem C6_pure_primary_first (fa : FinalAnalysis) (p : HealthIssue)
    (hp : fa.analysis.filter (fun x => x.is_primary) = [p]) :
    formatReport fa = formatReport fa
    ∧ (sortedAnalysis fa.analysis).head? = some p := by
  refine ⟨rfl, ?_⟩
  rw [sortedAnalysis_eq, hp]
  rfl

/-- Witness for C6 at a concrete analysis whose primary entry is last. -/
theorem C6_pure_primary_first_witness :
    ((FinalAnalysis.mk
        [{ diagnosis := "Asthma", rationale := "wheezing", is_primary := false },
         { diagnosis := "GERD", rationale := "reflux", is_primary := false },
         { diagnosis := "Angina", rationale := "chest pain", is_primary := true }]).analysis.filter
        (fun x => x.is_primary)
      = [{ diagnosis := "Angina", rationale := "chest pain", is_primary := true }])
    ∧ (formatReport (FinalAnalysis.mk
          [{ diagnosis := "Asthma", rationale := "wheezing", is_primary := false },
           { diagnosis := "GERD", rationale := "reflux", is_primary := false },
           { diagnosis := "Angina", rationale := "chest pain", is_primary := true }])
        = formatReport (FinalAnalysis.mk
          [{ diagnosis := "Asthma", rationale := "wheezing", is_primary := false },
           { diagnosis := "GERD", rationale := "reflux", is_primary := false },
           { diagnosis := "Angina", rationale := "chest pain", is_primary := true }])
      ∧ (sortedAnalysis (FinalAnalysis.mk
          [{ diagnosis := "Asthma", rationale := "wheezing", is_primary := false },
           { diagnosis := "GERD", rationale := "reflux", is_primary := false },
           { diagnosis := "Angina", rationale := "chest pain", is_primary := true }]).analysis).head?
        = some { diagnosis := "Angina", rationale := "chest pain", is_primary := true }) :=
  ⟨by decide,
    C6_pure_primary_first
      (FinalAnalysis.mk
        [{ diagnosis := "Asthma", rationale := "wheezing", is_primary := false },
         { diagnosis := "GERD", rationale := "reflux", is_primary := false },
         { diagnosis := "Angina", rationale := "chest pain", is_primary := true }])
      { diagnosis := "Angina", rationale := "chest pain", is_primary := true }
      (by decide)⟩

/-- C10: the formatter is total over every `FinalAnalysis` value — it always
produces the banner followed by one block per entry (no error path exists, and
no single-primary rule is re-checked), and the number of blocks tagged
"Primary Diagnosis" equals the number of entries with `is_primary = true`. -/
theorem C10_formatting_total (fa : FinalAnalysis) :
    formatReport fa
      = "### Final Multidisciplinary Team Analysis ###\n\n"
        ++ blocksText (sortedAnalysis fa.analysis)
    ∧ ((sortedAnalysis fa.analysis).map issueTag).length = fa.analysis.length
    ∧ ((sortedAnalysis fa.analysis).map issueTag).count "Primary Diagnosis"
        = fa.analysis.countP (fun x => x.is_primary) := by
  refine ⟨formatReport_eq fa, ?_, ?_⟩
  · simp [(sortedAnalysis_perm fa.analysis).length_eq]
  · rw [List.count_eq_countP, List.countP_map]
    have h1 : (sortedAnalysis fa.analysis).countP
        ((fun x => x == "Primary Diagnosis") ∘ issueTag)
        = (sortedAnalysis fa.analysis).countP (fun x => x.is_primary) := by
      apply List.countP_congr
      intro x hx
      cases hpx : x.is_primary <;> simp [Function.comp, issueTag, hpx]
    rw [h1, (sortedAnalysis_perm fa.analysis).countP_eq]
